import Mathlib

/-!
Verification of `src/lfl_data_upload/main.py`.

The pipeline in `process` is: select the lexicographically greatest
date-named entry of the source folder (`max` over a generator filtered by
`_is_date`, which calls `datetime.strptime(name, "%Y-%m-%d")`), take the
first file of that folder, `pd.read_excel(..., usecols=["Gym ID", "LFL
Status"], dtype="string")`, filter rows with
`center_id.str.isdigit() & lfl_status.isin(["LFL", "Non-LFL"])`,
`astype("int16")` the identifier, attach the folder name as a `Date`
column, `sort_values(["center_id"])`, and `to_csv`.

Modelling conventions:
* Cell text is modelled as `Option String` over ASCII characters: a
  `dtype="string"` cell is `none` when the spreadsheet cell is missing
  (`pd.NA`).  `str.isdigit` is modelled on the ASCII digit class.
* Library behaviour is translated from what the called pandas / NumPy /
  CPython routines do on these inputs: `strptime`'s `%Y-%m-%d` regex
  (`\d\d\d\d`, `1[0-2]|0[1-9]|[1-9]`, `3[01]|[12]\d|0[1-9]|[1-9]`, full
  match, then calendar validation by the `datetime` constructor);
  Kleene `&` on nullable booleans; boolean masking that raises
  `ValueError` when the mask contains `NA`; object-to-`int16` conversion
  that raises `OverflowError` outside the signed 16-bit range.
* `sort_values` is called with the default `kind="quicksort"`, which
  pandas documents as not stable; it is modelled by its contract: the
  result is some permutation of the input that is sorted ascending on
  the key.
* Python exceptions are modelled with `Except`; raising terminates the
  run, and a run that returns `Except.ok rows` is one that reaches
  `to_csv` and writes exactly `rows`.
-/

/-- Numeric value of an ASCII digit character (`ord c - ord '0'`,
truncated at 0 for characters below `'0'`). -/
def dv (c : Char) : Nat := c.toNat - 48

/-- ASCII decimal digit class `[0-9]`, the characters matched by the
`\d` class of `strptime`'s regex and accepted by `str.isdigit` in the
ASCII range. -/
def isDig (c : Char) : Bool := decide (48 ≤ c.toNat) && decide (c.toNat ≤ 57)

/-- Python `str.isdigit()` on ASCII text: non-empty and every character
a decimal digit.  The empty string is not digit-only. -/
def pyStrIsdigit (s : String) : Bool := !s.isEmpty && s.toList.all (fun c => isDig c)

/-- Python `int()` on a digit-only string: base-10 value of the digit
list (leading zeros allowed). -/
def natOfDigits (cs : List Char) : Nat := cs.foldl (fun a c => 10 * a + dv c) 0

/-- `%Y` of `_strptime`: exactly four `\d` characters. -/
def matchYear4 : List Char → Option (Nat × List Char)
  | a :: b :: c :: d :: rest =>
    if isDig a ∧ isDig b ∧ isDig c ∧ isDig d then
      some (1000 * dv a + 100 * dv b + 10 * dv c + dv d, rest)
    else none
  | _ => none

/-- `%m` of `_strptime`: the ordered regex alternation
`1[0-2]|0[1-9]|[1-9]` (one or two digits, month 1-12). -/
def matchMonth : List Char → Option (Nat × List Char)
  | c1 :: c2 :: rest =>
    if isDig c1 ∧ isDig c2 ∧ dv c1 = 1 ∧ dv c2 ≤ 2 then some (10 + dv c2, rest)
    else if isDig c1 ∧ isDig c2 ∧ dv c1 = 0 ∧ 1 ≤ dv c2 then some (dv c2, rest)
    else if isDig c1 ∧ 1 ≤ dv c1 then some (dv c1, c2 :: rest)
    else none
  | [c1] => if isDig c1 ∧ 1 ≤ dv c1 then some (dv c1, []) else none
  | [] => none

/-- `%d` of `_strptime`: the ordered regex alternation
`3[01]|[12]\d|0[1-9]|[1-9]` (one or two digits, day 1-31). -/
def matchDay : List Char → Option (Nat × List Char)
  | c1 :: c2 :: rest =>
    if isDig c1 ∧ isDig c2 ∧ dv c1 = 3 ∧ dv c2 ≤ 1 then some (30 + dv c2, rest)
    else if isDig c1 ∧ isDig c2 ∧ (dv c1 = 1 ∨ dv c1 = 2) then
      some (10 * dv c1 + dv c2, rest)
    else if isDig c1 ∧ isDig c2 ∧ dv c1 = 0 ∧ 1 ≤ dv c2 then some (dv c2, rest)
    else if isDig c1 ∧ 1 ≤ dv c1 then some (dv c1, c2 :: rest)
    else none
  | [c1] => if isDig c1 ∧ 1 ≤ dv c1 then some (dv c1, []) else none
  | [] => none

/-- The full `%Y-%m-%d` pattern of `strptime`: year, literal dash,
month, literal dash, day, and no unconverted data remaining. -/
def parseYMD (s : String) : Option (Nat × Nat × Nat) :=
  match matchYear4 s.toList with
  | some (y, '-' :: r1) =>
    match matchMonth r1 with
    | some (m, '-' :: r2) =>
      match matchDay r2 with
      | some (d, []) => some (y, m, d)
      | _ => none
    | _ => none
  | _ => none

/-- Gregorian leap-year rule used by `datetime`. -/
def isLeap (y : Nat) : Bool := y % 4 = 0 && (y % 100 ≠ 0 || y % 400 = 0)

/-- Days in a month, as validated by the `datetime` constructor. -/
def daysInMonth (y m : Nat) : Nat :=
  if m = 2 then (if isLeap y then 29 else 28)
  else if m = 4 ∨ m = 6 ∨ m = 9 ∨ m = 11 then 30
  else 31

/-- The `datetime(y, m, d)` constructor's validity check
(`MINYEAR = 1`, `MAXYEAR = 9999`, calendar-aware day bound). -/
def isValidDate (y m d : Nat) : Bool :=
  decide (1 ≤ y ∧ y ≤ 9999 ∧ 1 ≤ m ∧ m ≤ 12 ∧ 1 ≤ d ∧ d ≤ daysInMonth y m)

/-- `_is_date` of the source: `datetime.strptime(name, "%Y-%m-%d")`
succeeds (the warning-logging side effect is dropped). -/
def is_date (s : String) : Bool :=
  match parseYMD s with
  | some (y, m, d) => isValidDate y m d
  | none => false

/-- Chronological key of a name that parses under `%Y-%m-%d`:
`y * 10000 + m * 100 + d`, which orders triples chronologically. -/
def dateKey? (s : String) : Option Nat :=
  (parseYMD s).map (fun t => 10000 * t.1 + 100 * t.2.1 + t.2.2)

/-- Digit character of a value 0-9 (0 for anything larger). -/
def dc : Nat → Char
  | 0 => '0' | 1 => '1' | 2 => '2' | 3 => '3' | 4 => '4'
  | 5 => '5' | 6 => '6' | 7 => '7' | 8 => '8' | 9 => '9'
  | _ => '0'

/-- Modelled from the spec: the exact zero-padded `YYYY-MM-DD` rendering
of a date triple, the only shape the spec's validator sentence says is
accepted. -/
def padDate (y m d : Nat) : String :=
  ⟨[dc (y / 1000), dc (y / 100 % 10), dc (y / 10 % 10), dc (y % 10), '-',
    dc (m / 10), dc (m % 10), '-', dc (d / 10), dc (d % 10)]⟩

/-- Lexicographic strict order on character lists by code point, the
order Python uses to compare strings (written as an executable Bool). -/
def charListLt : List Char → List Char → Bool
  | [], [] => false
  | [], _ :: _ => true
  | _ :: _, [] => false
  | a :: as, b :: bs =>
    if a < b then true
    else if b < a then false
    else charListLt as bs

/-- Python `a < b` on strings: lexicographic by code point. -/
def pyStrLt (a b : String) : Bool := charListLt a.toList b.toList

/-- Python `max` over a non-empty list of strings, keeping the earlier
element on ties; `none` on the empty list (where Python's `max` raises
`ValueError`). -/
def maxString? : List String → Option String
  | [] => none
  | h :: t => some (t.foldl (fun a b => if pyStrLt a b then b else a) h)

/-- The folder-selection expression of `process`:
`max(path.name for path in source_folder.glob("*") if is_date(path.name))`. -/
def selectDatedFolder (names : List String) : Option String :=
  maxString? (names.filter (fun n => is_date n))

/-- A row of the extracted table after
`read_excel(..., usecols=["Gym ID", "LFL Status"], dtype="string")` and
the rename to `center_id` / `lfl_status`.  A field is `none` when the
spreadsheet cell is missing (`pd.NA`). -/
structure RawRow where
  center_id : Option String
  lfl_status : Option String
deriving DecidableEq

deriving instance DecidableEq for Except

/-- A row of the final table handed to `to_csv`: converted identifier,
status text, and the `Date` column holding the selected folder name. -/
structure OutRow where
  center_id : Int
  lfl_status : String
  Date : String
deriving DecidableEq

/-- The Python exceptions the pipeline can raise: `ValueError` (empty
`max`, NA boolean mask, failed `int` conversion), `IndexError` (empty
dated folder), NumPy's `OverflowError` (value outside `int16`), and the
source's `DataProcessingError` carrying a message and its `__cause__`. -/
inductive PyExc where
  | valueError (msg : String)
  | indexError
  | overflowError
  | dataProcessingError (msg : String) (cause : PyExc)
deriving DecidableEq

/-- The file-system and spreadsheet environment `process` runs against:
the names `source_folder.glob("*")` yields, the listing of each dated
subfolder, and the spreadsheet reader (the black-box `pd.read_excel`,
returning the two requested columns or the `ValueError` message it
raises when the file is not parseable or lacks a required column). -/
structure Env where
  folderEntries : List String
  datedFolderFiles : String → List String
  readExcel : String → Except String (List RawRow)

/-- `latest_folder` of `process`: the `max` over date-valid entry names. -/
def selectedFolder? (env : Env) : Option String :=
  selectDatedFolder env.folderEntries

/-- `Series.isin(["LFL", "Non-LFL"])` on one `dtype="string"` cell: a
missing value is not in the list, so the result is `False`, not `NA`. -/
def statusAccepted : Option String → Bool
  | none => false
  | some t => t = "LFL" || t = "Non-LFL"

/-- Kleene `&` of a nullable boolean (left) and a plain boolean (right),
as pandas computes `isdigit_mask & isin_mask`: `NA & True = NA`,
`NA & False = False`. -/
def kand : Option Bool → Bool → Option Bool
  | _, false => some false
  | ob, true => ob

/-- The boolean-mask entry of one row:
`center_id.str.isdigit() & lfl_status.isin(["LFL", "Non-LFL"])`
(`str.isdigit` propagates `NA`). -/
def rowMask (r : RawRow) : Option Bool :=
  kand (r.center_id.map pyStrIsdigit) (statusAccepted r.lfl_status)

/-- Message pandas raises when a boolean mask contains `NA`. -/
def maskMsg : String := "Cannot mask with non-boolean array containing NA / NaN values"

/-- `excel_df[mask]`: if any mask entry is `NA`, pandas raises
`ValueError`; otherwise the rows whose mask entry is `True` survive in
their original order. -/
def filterRows (rows : List RawRow) : Except PyExc (List RawRow) :=
  if rows.any (fun r => (rowMask r).isNone) then
    .error (.valueError maskMsg)
  else
    .ok (rows.filter (fun r => (rowMask r).getD false))

/-- `astype("int16")` on the surviving `center_id` strings plus the
`.assign(..., Date=latest_folder)` stamp: each string is converted by
`int()` and range-checked against the signed 16-bit bounds by NumPy's
object-to-`int16` cast, which raises `OverflowError` (never truncates or
wraps) outside them; digit-only values are non-negative, so only the
upper bound 32767 can fail. -/
def astypeRows : List RawRow → String → Except PyExc (List OutRow)
  | [], _ => .ok []
  | r :: rs, latest =>
    match r.center_id with
    | none => .error (.valueError "int() argument is NA")
    | some s =>
      if pyStrIsdigit s then
        if natOfDigits s.toList ≤ 32767 then
          match astypeRows rs latest with
          | .error e => .error e
          | .ok rest =>
            .ok (⟨(natOfDigits s.toList : Int), r.lfl_status.getD "", latest⟩ :: rest)
        else .error .overflowError
      else .error (.valueError "invalid literal for int()")

/-- `process` up to (and excluding) `sort_values`: folder selection
(`max` raises `ValueError` on an empty sequence), file location
(`list(...)[0]` raises `IndexError` on an empty folder), extraction
(`read_excel` failure is caught and re-raised as `DataProcessingError`
naming the file, with the `ValueError` as cause), row filter, and the
typed transform. -/
def processUnsorted (env : Env) : Except PyExc (List OutRow) :=
  match selectedFolder? env with
  | none => .error (.valueError "max() arg is an empty sequence")
  | some latest =>
    match env.datedFolderFiles latest with
    | [] => .error .indexError
    | inputFile :: _ =>
      match env.readExcel inputFile with
      | .error msg =>
        .error (.dataProcessingError (inputFile ++ " is not an excel file") (.valueError msg))
      | .ok rows =>
        match filterRows rows with
        | .error e => .error e
        | .ok kept => astypeRows kept latest

/-- `out` is a table the full `process` can hand to `to_csv`:
the pre-sort pipeline succeeds and `out` is what
`sort_values(["center_id"])` (default `kind="quicksort"`, whose contract
is an ascending permutation with no stability guarantee) makes of it. -/
def processOutputs (env : Env) (out : List OutRow) : Prop :=
  ∃ pre, processUnsorted env = .ok pre ∧ pre.Perm out ∧
    out.Pairwise (fun a b => a.center_id ≤ b.center_id)

/-- `main` of the source: runs `process`, catches exactly
`DataProcessingError` into exit code 1, returns 0 on success, and lets
every other exception propagate. -/
def mainRun (env : Env) : Except PyExc Nat :=
  match processUnsorted env with
  | .ok _ => .ok 0
  | .error (.dataProcessingError _ _) => .ok 1
  | .error e => .error e


/-- A concrete run: the spec's walk-through scenario (folders
`2023-01-01`, `2023-06-15`, `notes`; one spreadsheet with four rows). -/
def envA : Env where
  folderEntries := ["2023-01-01", "2023-06-15", "notes"]
  datedFolderFiles := fun _ => ["data.xlsx"]
  readExcel := fun _ => .ok
    [⟨some "12", some "LFL"⟩, ⟨some "7", some "Non-LFL"⟩,
     ⟨some "abc", some "LFL"⟩, ⟨some "3", some "Unknown"⟩]

/-- The table `process` computes for `envA` before sorting. -/
def preA : List OutRow :=
  [⟨12, "LFL", "2023-06-15"⟩, ⟨7, "Non-LFL", "2023-06-15"⟩]

/-- The sorted output for `envA`. -/
def outA : List OutRow :=
  [⟨7, "Non-LFL", "2023-06-15"⟩, ⟨12, "LFL", "2023-06-15"⟩]

/-- A concrete run whose only data row has identifier text `"40000"`. -/
def envOv : Env where
  folderEntries := ["2023-06-15"]
  datedFolderFiles := fun _ => ["data.xlsx"]
  readExcel := fun _ => .ok [⟨some "40000", some "LFL"⟩]

/-- A concrete run whose only data row has a missing status cell. -/
def envNA : Env where
  folderEntries := ["2023-06-15"]
  datedFolderFiles := fun _ => ["data.xlsx"]
  readExcel := fun _ => .ok [⟨some "12", none⟩]

/-- A concrete run whose located file is not a parseable spreadsheet. -/
def envDPE : Env where
  folderEntries := ["2023-06-15"]
  datedFolderFiles := fun _ => ["notes.txt"]
  readExcel := fun _ => .error "Excel file format cannot be determined"

/-- A concrete run with two surviving rows sharing one identifier. -/
def envTie : Env where
  folderEntries := ["2023-06-15"]
  datedFolderFiles := fun _ => ["data.xlsx"]
  readExcel := fun _ => .ok [⟨some "5", some "LFL"⟩, ⟨some "5", some "Non-LFL"⟩]

theorem charListLt_iff_lt : ∀ as bs : List Char, charListLt as bs = true ↔ as < bs
  | [], [] => by
    constructor
    · intro h; simp [charListLt] at h
    · intro h; cases h
  | [], b :: bs => by
    constructor
    · intro _; exact List.Lex.nil
    · intro _; rfl
  | a :: as, [] => by
    constructor
    · intro h; simp [charListLt] at h
    · intro h; cases h
  | a :: as, b :: bs => by
    show (if a < b then true else if b < a then false else charListLt as bs) = true ↔ _
    by_cases h1 : a < b
    · rw [if_pos h1]
      exact ⟨fun _ => List.Lex.rel h1, fun _ => rfl⟩
    · rw [if_neg h1]
      by_cases h2 : b < a
      · rw [if_pos h2]
        constructor
        · intro h; cases h
        · intro h
          cases h with
          | cons h => exact absurd h2 (lt_irrefl a)
          | rel h => exact absurd h h1
      · rw [if_neg h2]
        have hab : a = b := le_antisymm (not_lt.mp h2) (not_lt.mp h1)
        subst hab
        rw [charListLt_iff_lt as bs]
        constructor
        · intro h; exact List.Lex.cons h
        · intro h
          cases h with
          | cons h => exact h
          | rel h => exact absurd h h1

theorem pyStrLt_iff_lt (a b : String) : pyStrLt a b = true ↔ a < b := by
  rw [String.lt_iff_toList_lt]
  exact charListLt_iff_lt a.toList b.toList

theorem foldl_pyMax_spec (t : List String) : ∀ a : String,
    (t.foldl (fun x y => if pyStrLt x y then y else x) a = a ∨
      t.foldl (fun x y => if pyStrLt x y then y else x) a ∈ t) ∧
    a ≤ t.foldl (fun x y => if pyStrLt x y then y else x) a ∧
    ∀ x ∈ t, x ≤ t.foldl (fun x y => if pyStrLt x y then y else x) a := by
  induction t with
  | nil => intro a; simp
  | cons b t ih =>
    intro a
    simp only [List.foldl_cons]
    obtain ⟨hmem, hle, hall⟩ := ih (if pyStrLt a b then b else a)
    have hstep_mem : (if pyStrLt a b then b else a) = b ∨ (if pyStrLt a b then b else a) = a := by
      by_cases h : pyStrLt a b
      · rw [if_pos h]; exact Or.inl rfl
      · rw [if_neg h]; exact Or.inr rfl
    have ha_step : a ≤ (if pyStrLt a b then b else a) := by
      by_cases h : pyStrLt a b
      · rw [if_pos h]; exact le_of_lt ((pyStrLt_iff_lt a b).mp h)
      · rw [if_neg h]
    have hb_step : b ≤ (if pyStrLt a b then b else a) := by
      by_cases h : pyStrLt a b
      · rw [if_pos h]
      · rw [if_neg h]
        exact not_lt.mp (fun hlt => h ((pyStrLt_iff_lt a b).mpr hlt))
    refine ⟨?_, le_trans ha_step hle, ?_⟩
    · rcases hmem with h | h
      · rw [h]
        rcases hstep_mem with h' | h'
        · exact Or.inr (by rw [h']; exact List.mem_cons_self b t)
        · exact Or.inl h'
      · exact Or.inr (List.mem_cons_of_mem b h)
    · intro x hx
      rcases List.mem_cons.mp hx with h | h
      · rw [h]; exact le_trans hb_step hle
      · exact hall x h

theorem maxString?_spec (l : List String) (hne : l ≠ []) :
    ∃ m, maxString? l = some m ∧ m ∈ l ∧ ∀ x ∈ l, x ≤ m := by
  cases l with
  | nil => exact absurd rfl hne
  | cons h t =>
    obtain ⟨hmem, hle, hall⟩ := foldl_pyMax_spec t h
    refine ⟨_, rfl, ?_, ?_⟩
    · rcases hmem with heq | hm
      · rw [heq]; exact List.mem_cons_self h t
      · exact List.mem_cons_of_mem h hm
    · intro x hx
      rcases List.mem_cons.mp hx with heq | hm
      · rw [heq]; exact hle
      · exact hall x hm

theorem statusAccepted_true_iff (o : Option String) :
    statusAccepted o = true ↔ ∃ t, o = some t ∧ (t = "LFL" ∨ t = "Non-LFL") := by
  cases o with
  | none => simp [statusAccepted]
  | some t => simp [statusAccepted]

theorem rowMask_some_true_iff (r : RawRow) :
    rowMask r = some true ↔
      (∃ s, r.center_id = some s ∧ pyStrIsdigit s = true) ∧
      (∃ t, r.lfl_status = some t ∧ (t = "LFL" ∨ t = "Non-LFL")) := by
  unfold rowMask
  cases hst : statusAccepted r.lfl_status with
  | false =>
    constructor
    · intro h; simp [kand] at h
    · rintro ⟨-, t, hl, ht⟩
      rw [hl] at hst
      simp [statusAccepted] at hst
      rcases ht with h | h <;> simp [h] at hst
  | true =>
    rw [show kand (r.center_id.map pyStrIsdigit) true = r.center_id.map pyStrIsdigit from rfl]
    constructor
    · intro h
      obtain ⟨s, hs, hdig⟩ := Option.map_eq_some'.mp h
      exact ⟨⟨s, hs, hdig⟩, (statusAccepted_true_iff _).mp hst⟩
    · rintro ⟨⟨s, hs, hdig⟩, -⟩
      rw [hs]
      simp [hdig]

theorem getD_false_eq_true_iff (ob : Option Bool) : ob.getD false = true ↔ ob = some true := by
  cases ob <;> simp

theorem filterRows_ok_inv {rows kept : List RawRow} (h : filterRows rows = .ok kept) :
    kept = rows.filter (fun r => (rowMask r).getD false) ∧
    ∀ r ∈ rows, (rowMask r).isNone = false := by
  unfold filterRows at h
  split at h
  · exact absurd h (by simp)
  · rename_i hany
    refine ⟨(Except.ok.inj h).symm, ?_⟩
    intro r hr
    exact Bool.not_eq_true _ ▸ List.any_eq_false.mp (Bool.not_eq_true _ ▸ hany) r hr

theorem filterRows_ok_mem {rows kept : List RawRow} (h : filterRows rows = .ok kept) :
    ∀ r ∈ kept, r ∈ rows ∧ rowMask r = some true := by
  obtain ⟨hk, -⟩ := filterRows_ok_inv h
  intro r hr
  rw [hk] at hr
  obtain ⟨hmem, hp⟩ := List.mem_filter.mp hr
  exact ⟨hmem, (getD_false_eq_true_iff _).mp hp⟩

theorem filterRows_error_shape {rows : List RawRow} {e : PyExc}
    (h : filterRows rows = .error e) : e = .valueError maskMsg := by
  unfold filterRows at h
  split at h
  · exact (Except.error.inj h).symm
  · exact absurd h (by simp)

theorem astypeRows_ok_mem : ∀ {kept : List RawRow} {latest : String} {out : List OutRow},
    astypeRows kept latest = .ok out → ∀ o ∈ out,
      o.Date = latest ∧ (0 : Int) ≤ o.center_id ∧ o.center_id ≤ 32767 ∧
      ∃ r ∈ kept, ∃ s, r.center_id = some s ∧ pyStrIsdigit s = true ∧
        (natOfDigits s.toList : Int) = o.center_id ∧ o.lfl_status = r.lfl_status.getD "" := by
  intro kept
  induction kept with
  | nil =>
    intro latest out h o ho
    simp only [astypeRows] at h
    rw [← Except.ok.inj h] at ho
    cases ho
  | cons r rs ih =>
    intro latest out h o ho
    obtain ⟨rc, rl⟩ := r
    cases rc with
    | none => simp [astypeRows] at h
    | some s =>
      simp only [astypeRows] at h
      by_cases hdig : pyStrIsdigit s
      · rw [if_pos hdig] at h
        by_cases hrange : natOfDigits s.toList ≤ 32767
        · rw [if_pos hrange] at h
          cases hrec : astypeRows rs latest with
          | error e => rw [hrec] at h; exact absurd h (by simp)
          | ok rest =>
            rw [hrec] at h
            rw [← Except.ok.inj h] at ho
            rcases List.mem_cons.mp ho with heq | hmem
            · subst heq
              refine ⟨rfl, by positivity,
                by show ((natOfDigits s.toList : Int)) ≤ 32767; exact_mod_cast hrange, ⟨some s, rl⟩,
                List.mem_cons_self _ rs, s, rfl, hdig, rfl, rfl⟩
            · obtain ⟨hd, hnn, hub, r2, hr2, hrest⟩ := ih hrec o hmem
              exact ⟨hd, hnn, hub, r2, List.mem_cons_of_mem _ hr2, hrest⟩
        · rw [if_neg hrange] at h; exact absurd h (by simp)
      · rw [if_neg hdig] at h; exact absurd h (by simp)

theorem astypeRows_overflow : ∀ {kept : List RawRow} {latest : String},
    (∀ r ∈ kept, rowMask r = some true) →
    ∀ r ∈ kept, ∀ s, r.center_id = some s → 32767 < natOfDigits s.toList →
    astypeRows kept latest = .error .overflowError := by
  intro kept
  induction kept with
  | nil => intro latest _ r hr; cases hr
  | cons r0 rs ih =>
    intro latest hall r hr s hs hv
    obtain ⟨⟨s0, hs0, hdig0⟩, -⟩ :=
      (rowMask_some_true_iff r0).mp (hall r0 (List.mem_cons_self r0 rs))
    obtain ⟨rc, rl⟩ := r0
    simp only at hs0
    subst hs0
    simp only [astypeRows]
    rw [if_pos hdig0]
    by_cases hrange : natOfDigits s0.toList ≤ 32767
    · rw [if_pos hrange]
      rcases List.mem_cons.mp hr with heq | hmem
      · subst heq
        simp only at hs
        rw [← Option.some.inj hs] at hv
        omega
      · rw [ih (fun x hx => hall x (List.mem_cons_of_mem _ hx)) r hmem s hs hv]
    · rw [if_neg hrange]

theorem astypeRows_error_shape : ∀ {kept : List RawRow} {latest : String} {e : PyExc},
    astypeRows kept latest = .error e → e = .overflowError ∨ ∃ m, e = .valueError m := by
  intro kept
  induction kept with
  | nil => intro latest e h; simp [astypeRows] at h
  | cons r rs ih =>
    intro latest e h
    obtain ⟨rc, rl⟩ := r
    cases rc with
    | none =>
      simp only [astypeRows] at h
      exact Or.inr ⟨_, (Except.error.inj h).symm⟩
    | some s =>
      simp only [astypeRows] at h
      by_cases hdig : pyStrIsdigit s
      · rw [if_pos hdig] at h
        by_cases hrange : natOfDigits s.toList ≤ 32767
        · rw [if_pos hrange] at h
          cases hrec : astypeRows rs latest with
          | error e2 =>
            rw [hrec] at h
            rw [← Except.error.inj h]
            exact ih hrec
          | ok rest => rw [hrec] at h; exact absurd h (by simp)
        · rw [if_neg hrange] at h
          exact Or.inl (Except.error.inj h).symm
      · rw [if_neg hdig] at h
        exact Or.inr ⟨_, (Except.error.inj h).symm⟩

theorem processUnsorted_ok_inv {env : Env} {out : List OutRow}
    (h : processUnsorted env = .ok out) :
    ∃ latest inputFile rows kept, selectedFolder? env = some latest ∧
      (env.datedFolderFiles latest).head? = some inputFile ∧
      env.readExcel inputFile = .ok rows ∧ filterRows rows = .ok kept ∧
      astypeRows kept latest = .ok out := by
  unfold processUnsorted at h
  cases hsel : selectedFolder? env with
  | none => rw [hsel] at h; exact absurd h (by simp)
  | some latest =>
    rw [hsel] at h
    simp only at h
    cases hfl : env.datedFolderFiles latest with
    | nil => rw [hfl] at h; exact absurd h (by simp)
    | cons f t =>
      rw [hfl] at h
      simp only at h
      cases hre : env.readExcel f with
      | error msg => rw [hre] at h; exact absurd h (by simp)
      | ok rows =>
        rw [hre] at h
        simp only at h
        cases hfil : filterRows rows with
        | error e => rw [hfil] at h; exact absurd h (by simp)
        | ok kept =>
          rw [hfil] at h
          simp only at h
          exact ⟨latest, f, rows, kept, rfl, by rw [hfl]; rfl, hre, hfil, h⟩

theorem processUnsorted_steps {env : Env} {latest inputFile : String}
    {rows kept : List RawRow}
    (h1 : selectedFolder? env = some latest)
    (h2 : (env.datedFolderFiles latest).head? = some inputFile)
    (h3 : env.readExcel inputFile = .ok rows)
    (h4 : filterRows rows = .ok kept) :
    processUnsorted env = astypeRows kept latest := by
  unfold processUnsorted
  rw [h1]
  simp only
  cases hfl : env.datedFolderFiles latest with
  | nil => rw [hfl] at h2; exact absurd h2 (by simp)
  | cons f t =>
    have hf : f = inputFile := by
      rw [hfl] at h2
      exact Option.some.inj h2
    subst hf
    simp only
    rw [h3]
    simp only
    rw [h4]

theorem processUnsorted_readFail {env : Env} {latest inputFile msg : String}
    (h1 : selectedFolder? env = some latest)
    (h2 : (env.datedFolderFiles latest).head? = some inputFile)
    (h3 : env.readExcel inputFile = .error msg) :
    processUnsorted env =
      .error (.dataProcessingError (inputFile ++ " is not an excel file") (.valueError msg)) := by
  unfold processUnsorted
  rw [h1]
  simp only
  cases hfl : env.datedFolderFiles latest with
  | nil => rw [hfl] at h2; exact absurd h2 (by simp)
  | cons f t =>
    have hf : f = inputFile := by
      rw [hfl] at h2
      exact Option.some.inj h2
    subst hf
    simp only
    rw [h3]

/-- C1: a row appears in the output only if its identifier text is
digit-only (per `str.isdigit`) and its status text is exactly `"LFL"` or
`"Non-LFL"`: every output row of a successful run traces back to an
extracted row passing both filter conditions. -/
theorem c1_only_filtered_rows_in_output (env : Env) (out : List OutRow) (o : OutRow)
    (h : processOutputs env out) (ho : o ∈ out) :
    ∃ latest inputFile rows, selectedFolder? env = some latest ∧
      (env.datedFolderFiles latest).head? = some inputFile ∧
      env.readExcel inputFile = .ok rows ∧
      ∃ raw ∈ rows, ∃ s, raw.center_id = some s ∧ pyStrIsdigit s = true ∧
        raw.lfl_status = some o.lfl_status ∧
        (o.lfl_status = "LFL" ∨ o.lfl_status = "Non-LFL") := by
  obtain ⟨pre, hpre, hperm, -⟩ := h
  have hopre : o ∈ pre := hperm.mem_iff.mpr ho
  obtain ⟨latest, f, rows, kept, hsel, hhead, hre, hfil, hast⟩ := processUnsorted_ok_inv hpre
  obtain ⟨hdate, hnn, hub, r, hrk, s, hcs, hdig, hval, hstat⟩ := astypeRows_ok_mem hast o hopre
  obtain ⟨hrrows, hmask⟩ := filterRows_ok_mem hfil r hrk
  obtain ⟨⟨s2, hs2, hdig2⟩, t, ht, htacc⟩ := (rowMask_some_true_iff r).mp hmask
  have hot : o.lfl_status = t := by rw [hstat, ht]; rfl
  refine ⟨latest, f, rows, hsel, hhead, hre, r, hrrows, s, hcs, hdig, ?_, ?_⟩
  · rw [ht, hot]
  · rw [hot]; exact htacc

/-- C1 witness: the spec's walk-through scenario, instantiated at the
output row `(7, "Non-LFL")`. -/
theorem c1_witness :
    ∃ latest inputFile rows, selectedFolder? envA = some latest ∧
      (envA.datedFolderFiles latest).head? = some inputFile ∧
      envA.readExcel inputFile = .ok rows ∧
      ∃ raw ∈ rows, ∃ s, raw.center_id = some s ∧ pyStrIsdigit s = true ∧
        raw.lfl_status = some (OutRow.mk 7 "Non-LFL" "2023-06-15").lfl_status ∧
        ((OutRow.mk 7 "Non-LFL" "2023-06-15").lfl_status = "LFL" ∨
          (OutRow.mk 7 "Non-LFL" "2023-06-15").lfl_status = "Non-LFL") :=
  c1_only_filtered_rows_in_output envA outA ⟨7, "Non-LFL", "2023-06-15"⟩
    ⟨preA, by decide, by decide, by decide⟩ (by decide)

/-- C3: if a surviving (filter-passing) row's identifier denotes a value
above 32767, the `int16` conversion raises `OverflowError` — processing
terminates with that error, never truncating or wrapping, and no output
table is produced. -/
theorem c3_overflow_is_fatal (env : Env) (latest inputFile : String)
    (rows kept : List RawRow) (r : RawRow) (s : String)
    (h1 : selectedFolder? env = some latest)
    (h2 : (env.datedFolderFiles latest).head? = some inputFile)
    (h3 : env.readExcel inputFile = .ok rows)
    (h4 : filterRows rows = .ok kept)
    (hr : r ∈ kept) (hs : r.center_id = some s)
    (hv : 32767 < natOfDigits s.toList) :
    processUnsorted env = .error .overflowError ∧ ∀ out, ¬ processOutputs env out := by
  have hmaskall : ∀ x ∈ kept, rowMask x = some true :=
    fun x hx => (filterRows_ok_mem h4 x hx).2
  have hp : processUnsorted env = .error .overflowError :=
    (processUnsorted_steps h1 h2 h3 h4).trans
      (astypeRows_overflow hmaskall r hr s hs hv)
  refine ⟨hp, ?_⟩
  rintro out ⟨pre, hpre, -, -⟩
  rw [hp] at hpre
  exact absurd hpre (by simp)

/-- C3 witness: the spec's overflow scenario, identifier text `"40000"`. -/
theorem c3_witness :
    processUnsorted envOv = .error .overflowError ∧ ∀ out, ¬ processOutputs envOv out :=
  c3_overflow_is_fatal envOv "2023-06-15" "data.xlsx"
    [⟨some "40000", some "LFL"⟩] [⟨some "40000", some "LFL"⟩]
    ⟨some "40000", some "LFL"⟩ "40000"
    (by decide) (by decide) (by decide) (by decide) (by decide) (by decide) (by decide)

/-- C6: every row of a produced output carries the selected folder name
as its `Date`, a `center_id` within the signed 16-bit range, and a
status in the accepted two-element set. -/
theorem c6_uniform_date_and_bounds (env : Env) (out : List OutRow)
    (h : processOutputs env out) :
    ∃ latest, selectedFolder? env = some latest ∧ ∀ o ∈ out,
      o.Date = latest ∧ (-32768 : Int) ≤ o.center_id ∧ o.center_id ≤ 32767 ∧
      (o.lfl_status = "LFL" ∨ o.lfl_status = "Non-LFL") := by
  obtain ⟨pre, hpre, hperm, -⟩ := h
  obtain ⟨latest, f, rows, kept, hsel, hhead, hre, hfil, hast⟩ := processUnsorted_ok_inv hpre
  refine ⟨latest, hsel, ?_⟩
  intro o ho
  have hopre : o ∈ pre := hperm.mem_iff.mpr ho
  obtain ⟨hdate, hnn, hub, r, hrk, s, hcs, hdig, hval, hstat⟩ := astypeRows_ok_mem hast o hopre
  obtain ⟨-, hmask⟩ := filterRows_ok_mem hfil r hrk
  obtain ⟨-, t, ht, htacc⟩ := (rowMask_some_true_iff r).mp hmask
  have hot : o.lfl_status = t := by rw [hstat, ht]; rfl
  refine ⟨hdate, le_trans (by norm_num) hnn, hub, ?_⟩
  rw [hot]; exact htacc

/-- C6 witness: the walk-through scenario's two-row output. -/
theorem c6_witness :
    ∃ latest, selectedFolder? envA = some latest ∧ ∀ o ∈ outA,
      o.Date = latest ∧ (-32768 : Int) ≤ o.center_id ∧ o.center_id ≤ 32767 ∧
      (o.lfl_status = "LFL" ∨ o.lfl_status = "Non-LFL") :=
  c6_uniform_date_and_bounds envA outA ⟨preA, by decide, by decide, by decide⟩

/-- C9: when the selected dated folder has no entries, `list(...)[0]`
raises `IndexError`; the failure happens whatever the spreadsheet reader
would do, i.e. before any spreadsheet read occurs. -/
theorem c9_empty_dated_folder_index_error (entries : List String)
    (files : String → List String) (latest : String)
    (h1 : selectDatedFolder entries = some latest)
    (h2 : files latest = []) :
    ∀ re : String → Except String (List RawRow),
      processUnsorted ⟨entries, files, re⟩ = .error .indexError := by
  intro re
  unfold processUnsorted
  have hsel : selectedFolder? ⟨entries, files, re⟩ = some latest := h1
  rw [hsel]
  simp only
  rw [h2]

/-- C9 witness: one date-valid folder whose listing is empty, with a
reader that would succeed if it were ever consulted. -/
theorem c9_witness :
    processUnsorted ⟨["2023-06-15"], fun _ => [], fun _ => .ok []⟩ = .error .indexError :=
  c9_empty_dated_folder_index_error ["2023-06-15"] (fun _ => []) "2023-06-15"
    (by decide) (by decide) (fun _ => .ok [])

/-- C7: `main` returns 0 exactly when `process` succeeds, returns 1
exactly when it raises `DataProcessingError`, and re-raises every other
exception unchanged. -/
theorem c7_exit_codes (env : Env) :
    (mainRun env = .ok 0 ↔ ∃ rows, processUnsorted env = .ok rows) ∧
    (mainRun env = .ok 1 ↔ ∃ m c, processUnsorted env = .error (.dataProcessingError m c)) ∧
    (∀ e, processUnsorted env = .error e → (∀ m c, e ≠ .dataProcessingError m c) →
      mainRun env = .error e) := by
  unfold mainRun
  cases hp : processUnsorted env with
  | ok rows => simp
  | error e => cases e <;> simp

/-- C7 witness: exit code 0 on the walk-through run, exit code 1 on the
unparseable-spreadsheet run, and a propagated `IndexError` on the
empty-folder run. -/
theorem c7_witness :
    mainRun envA = .ok 0 ∧ mainRun envDPE = .ok 1 ∧
    mainRun ⟨["2023-06-15"], fun _ => [], fun _ => .ok []⟩ = .error .indexError :=
  ⟨(c7_exit_codes envA).1.mpr ⟨preA, by decide⟩,
   (c7_exit_codes envDPE).2.1.mpr
     ⟨"notes.txt is not an excel file",
      .valueError "Excel file format cannot be determined", by decide⟩,
   (c7_exit_codes ⟨["2023-06-15"], fun _ => [], fun _ => .ok []⟩).2.2 .indexError
     (by decide) (fun m c h => PyExc.noConfusion h)⟩

/-- C8: whenever the located file's extraction fails, `process` raises
`DataProcessingError` whose message names that file path and whose cause
is the reader's `ValueError`; and conversely every `DataProcessingError`
the pipeline raises arises this way — it is the only caught-and-wrapped
failure. -/
theorem c8_extractor_error (env : Env) :
    (∀ latest inputFile msg, selectedFolder? env = some latest →
      (env.datedFolderFiles latest).head? = some inputFile →
      env.readExcel inputFile = .error msg →
      processUnsorted env =
        .error (.dataProcessingError (inputFile ++ " is not an excel file") (.valueError msg))) ∧
    (∀ m c, processUnsorted env = .error (.dataProcessingError m c) →
      ∃ latest inputFile msg, selectedFolder? env = some latest ∧
        (env.datedFolderFiles latest).head? = some inputFile ∧
        env.readExcel inputFile = .error msg ∧
        m = inputFile ++ " is not an excel file" ∧ c = .valueError msg) := by
  constructor
  · intro latest inputFile msg h1 h2 h3
    exact processUnsorted_readFail h1 h2 h3
  · intro m c h
    unfold processUnsorted at h
    cases hsel : selectedFolder? env with
    | none => rw [hsel] at h; simp at h
    | some latest =>
      rw [hsel] at h
      simp only at h
      cases hfl : env.datedFolderFiles latest with
      | nil => rw [hfl] at h; simp at h
      | cons f t =>
        rw [hfl] at h
        simp only at h
        cases hre : env.readExcel f with
        | error msg2 =>
          rw [hre] at h
          simp only at h
          obtain ⟨hm, hc⟩ := PyExc.dataProcessingError.inj (Except.error.inj h)
          exact ⟨latest, f, msg2, rfl, by rw [hfl]; rfl, hre, hm.symm, hc.symm⟩
        | ok rows =>
          rw [hre] at h
          simp only at h
          cases hfil : filterRows rows with
          | error e =>
            rw [hfil] at h
            simp only at h
            have he := Except.error.inj h
            rw [filterRows_error_shape hfil] at he
            exact absurd he (by simp)
          | ok kept =>
            rw [hfil] at h
            simp only at h
            rcases astypeRows_error_shape h with h2 | ⟨m2, h2⟩ <;> simp at h2
    
/-- C8 witness: the plain-text-file scenario. -/
theorem c8_witness :
    processUnsorted envDPE =
      .error (.dataProcessingError ("notes.txt is not an excel file")
        (.valueError "Excel file format cannot be determined")) :=
  (c8_extractor_error envDPE).1 "2023-06-15" "notes.txt"
    "Excel file format cannot be determined" (by decide) (by decide) (by decide)

theorem daysInMonth_le_31 (y m : Nat) : daysInMonth y m ≤ 31 := by
  unfold daysInMonth
  split_ifs <;> omega

theorem dv_dc {k : Nat} (hk : k ≤ 9) : dv (dc k) = k := by
  interval_cases k <;> rfl

theorem isDig_dc {k : Nat} (hk : k ≤ 9) : isDig (dc k) = true := by
  interval_cases k <;> rfl

theorem padDate_toList (y m d : Nat) :
    (padDate y m d).toList =
      [dc (y / 1000), dc (y / 100 % 10), dc (y / 10 % 10), dc (y % 10), '-',
       dc (m / 10), dc (m % 10), '-', dc (d / 10), dc (d % 10)] := rfl

theorem matchYear4_pad {y : Nat} (hy : y ≤ 9999) (rest : List Char) :
    matchYear4 (dc (y / 1000) :: dc (y / 100 % 10) :: dc (y / 10 % 10) :: dc (y % 10) :: rest) =
      some (y, rest) := by
  simp only [matchYear4, isDig_dc (show y / 1000 ≤ 9 by omega),
    isDig_dc (show y / 100 % 10 ≤ 9 by omega), isDig_dc (show y / 10 % 10 ≤ 9 by omega),
    isDig_dc (show y % 10 ≤ 9 by omega), dv_dc (show y / 1000 ≤ 9 by omega),
    dv_dc (show y / 100 % 10 ≤ 9 by omega), dv_dc (show y / 10 % 10 ≤ 9 by omega),
    dv_dc (show y % 10 ≤ 9 by omega)]
  rw [if_pos ⟨trivial, trivial, trivial, trivial⟩]
  simp only [Option.some.injEq, Prod.mk.injEq]
  exact ⟨by omega, trivial⟩

theorem matchMonth_pad {m : Nat} (hm1 : 1 ≤ m) (hm2 : m ≤ 12) (c : Char) (rest : List Char) :
    matchMonth (dc (m / 10) :: dc (m % 10) :: c :: rest) = some (m, c :: rest) := by
  simp only [matchMonth, isDig_dc (show m / 10 ≤ 9 by omega),
    isDig_dc (show m % 10 ≤ 9 by omega), dv_dc (show m / 10 ≤ 9 by omega),
    dv_dc (show m % 10 ≤ 9 by omega)]
  by_cases h10 : m < 10
  · rw [if_neg (by rintro ⟨-, -, h, -⟩; omega), if_pos ⟨trivial, trivial, by omega, by omega⟩]
    simp only [Option.some.injEq, Prod.mk.injEq]
    exact ⟨by omega, trivial⟩
  · rw [if_pos ⟨trivial, trivial, by omega, by omega⟩]
    simp only [Option.some.injEq, Prod.mk.injEq]
    exact ⟨by omega, trivial⟩

theorem matchDay_pad {d : Nat} (hd1 : 1 ≤ d) (hd2 : d ≤ 31) :
    matchDay [dc (d / 10), dc (d % 10)] = some (d, []) := by
  simp only [matchDay, isDig_dc (show d / 10 ≤ 9 by omega),
    isDig_dc (show d % 10 ≤ 9 by omega), dv_dc (show d / 10 ≤ 9 by omega),
    dv_dc (show d % 10 ≤ 9 by omega)]
  by_cases h30 : 30 ≤ d
  · rw [if_pos ⟨trivial, trivial, by omega, by omega⟩]
    simp only [Option.some.injEq, Prod.mk.injEq]
    exact ⟨by omega, trivial⟩
  · by_cases h10 : d < 10
    · rw [if_neg (by rintro ⟨-, -, h, -⟩; omega),
        if_neg (by rintro ⟨-, -, h⟩; omega),
        if_pos ⟨trivial, trivial, by omega, by omega⟩]
      simp only [Option.some.injEq, Prod.mk.injEq]
      exact ⟨by omega, trivial⟩
    · rw [if_neg (by rintro ⟨-, -, h, -⟩; omega), if_pos ⟨trivial, trivial, by omega⟩]
      simp only [Option.some.injEq, Prod.mk.injEq]
      exact ⟨by omega, trivial⟩

theorem parseYMD_padDate {y m d : Nat} (hy2 : y ≤ 9999)
    (hm1 : 1 ≤ m) (hm2 : m ≤ 12) (hd1 : 1 ≤ d) (hd2 : d ≤ 31) :
    parseYMD (padDate y m d) = some (y, m, d) := by
  unfold parseYMD
  rw [padDate_toList, matchYear4_pad hy2]
  simp only
  rw [matchMonth_pad hm1 hm2]
  simp only
  rw [matchDay_pad hd1 hd2]

/-- C5 counterexample: the claim says the validator accepts only the
exact zero-padded `%Y-%m-%d` form and rejects `"2023-1-1"`; but
`strptime` tolerates non-zero-padded month and day, so `_is_date`
accepts `"2023-1-1"` even though it is not the padded rendering of its
date.  (Impossible dates like day 32 are indeed rejected.) -/
theorem c5_counterexample :
    is_date "2023-1-1" = true ∧ padDate 2023 1 1 = "2023-01-01" ∧
    ("2023-1-1" : String) ≠ "2023-01-01" ∧ is_date "2023-01-32" = false :=
  ⟨by decide, by decide, by decide, by decide⟩

/-- C5 amended: the validator accepts what the `%Y-%m-%d` `strptime`
parse accepts — every exactly zero-padded valid calendar date, but also
non-zero-padded variants such as `"2023-1-1"` — and every accepted name
parses to a real calendar date (month 1-12, day within the month, so
day 32 is rejected in all cases, year 1-9999). -/
theorem c5_validator_is_strptime_parseability :
    (∀ y m d, isValidDate y m d = true → is_date (padDate y m d) = true) ∧
    is_date "2023-1-1" = true ∧
    (∀ s y m d, parseYMD s = some (y, m, d) → is_date s = true →
      1 ≤ m ∧ m ≤ 12 ∧ 1 ≤ d ∧ d ≤ daysInMonth y m ∧ d ≤ 31 ∧ 1 ≤ y) := by
  refine ⟨?_, by decide, ?_⟩
  · intro y m d hv
    simp only [isValidDate, decide_eq_true_eq] at hv
    obtain ⟨hy1, hy2, hm1, hm2, hd1, hdm⟩ := hv
    unfold is_date
    rw [parseYMD_padDate hy2 hm1 hm2 hd1 (le_trans hdm (daysInMonth_le_31 y m))]
    simp only [isValidDate, decide_eq_true_eq]
    exact ⟨hy1, hy2, hm1, hm2, hd1, hdm⟩
  · intro s y m d hp hd
    unfold is_date at hd
    rw [hp] at hd
    simp only [isValidDate, decide_eq_true_eq] at hd
    obtain ⟨hy1, hy2, hm1, hm2, hd1, hdm⟩ := hd
    exact ⟨hm1, hm2, hd1, hdm, le_trans hdm (daysInMonth_le_31 y m), hy1⟩

/-- C5 witness: a padded leap-day is accepted via the theorem. -/
theorem c5_witness :
    isValidDate 2024 2 29 = true ∧ is_date (padDate 2024 2 29) = true :=
  ⟨by decide, c5_validator_is_strptime_parseability.1 2024 2 29 (by decide)⟩

/-- C2 counterexample: with entries `2023-10-01` and `2023-9-01` (both
accepted by the validator), the selector returns the lexicographic
maximum `"2023-9-01"`, whose date (1 September) is chronologically
earlier than `2023-10-01` — so the selected name is not the
chronologically latest date. -/
theorem c2_counterexample :
    selectDatedFolder ["2023-10-01", "2023-9-01"] = some "2023-9-01" ∧
    is_date "2023-10-01" = true ∧ is_date "2023-9-01" = true ∧
    dateKey? "2023-9-01" = some 20230901 ∧ dateKey? "2023-10-01" = some 20231001 ∧
    (20230901 : Nat) < 20231001 :=
  ⟨by decide, by decide, by decide, by decide, by decide, by decide⟩

/-- C2 amended: when at least one entry name validates, the selector
returns the lexicographically maximum date-valid name (a member of the
input, itself date-valid, and an upper bound of every date-valid
entry), and non-date names never affect the result wherever they are
inserted.  (By `c2_counterexample` this maximum need not be the
chronologically latest date, since non-zero-padded names are valid.) -/
theorem c2_selector_returns_lex_max (names : List String)
    (h : ∃ n ∈ names, is_date n = true) :
    (∃ m, selectDatedFolder names = some m ∧ m ∈ names ∧ is_date m = true ∧
      ∀ n ∈ names, is_date n = true → n ≤ m) ∧
    ∀ bad, is_date bad = false →
      selectDatedFolder (bad :: names) = selectDatedFolder names := by
  constructor
  · obtain ⟨n, hn, hdn⟩ := h
    have hne : names.filter (fun n => is_date n) ≠ [] := by
      intro hemp
      have hmem : n ∈ names.filter (fun n => is_date n) := List.mem_filter.mpr ⟨hn, hdn⟩
      rw [hemp] at hmem
      cases hmem
    obtain ⟨m, hmax, hmem, hall⟩ := maxString?_spec _ hne
    exact ⟨m, hmax, (List.mem_filter.mp hmem).1, (List.mem_filter.mp hmem).2,
      fun x hx hdx => hall x (List.mem_filter.mpr ⟨hx, hdx⟩)⟩
  · intro bad hbad
    unfold selectDatedFolder
    rw [List.filter_cons_of_neg]
    simp [hbad]

/-- C2 witness: the walk-through folder listing. -/
theorem c2_witness :
    ∃ m, selectDatedFolder ["2023-01-01", "2023-06-15", "notes"] = some m ∧
      m ∈ ["2023-01-01", "2023-06-15", "notes"] ∧ is_date m = true ∧
      ∀ n ∈ ["2023-01-01", "2023-06-15", "notes"], is_date n = true → n ≤ m :=
  (c2_selector_returns_lex_max ["2023-01-01", "2023-06-15", "notes"]
    ⟨"2023-06-15", by decide, by decide⟩).1

/-- C4 counterexample: `sort_values` is called with the default
`kind="quicksort"`, which guarantees only a sorted permutation, not
stability.  For a run whose transform output is two distinct rows with
equal `center_id` (original order LFL then Non-LFL), the reversed order
is an admissible final output — so the claim that ties always keep
their original relative order fails under the code's sort contract. -/
theorem c4_counterexample :
    processUnsorted envTie = .ok
      [⟨5, "LFL", "2023-06-15"⟩, ⟨5, "Non-LFL", "2023-06-15"⟩] ∧
    processOutputs envTie
      [⟨5, "Non-LFL", "2023-06-15"⟩, ⟨5, "LFL", "2023-06-15"⟩] ∧
    (OutRow.mk 5 "Non-LFL" "2023-06-15").center_id =
      (OutRow.mk 5 "LFL" "2023-06-15").center_id ∧
    OutRow.mk 5 "Non-LFL" "2023-06-15" ≠ OutRow.mk 5 "LFL" "2023-06-15" :=
  ⟨by decide,
   ⟨[⟨5, "LFL", "2023-06-15"⟩, ⟨5, "Non-LFL", "2023-06-15"⟩],
    by decide, by decide, by decide⟩,
   by decide, by decide⟩

/-- C4 amended: every output the full pipeline can produce is sorted
ascending by `center_id` (non-decreasing from top to bottom) and is a
permutation of the transform stage's table; the relative order of rows
with equal identifiers is not specified. -/
theorem c4_output_sorted_ascending (env : Env) (out : List OutRow)
    (h : processOutputs env out) :
    (∀ i j : Fin out.length, i < j →
      (out.get i).center_id ≤ (out.get j).center_id) ∧
    ∃ pre, processUnsorted env = .ok pre ∧ pre.Perm out := by
  obtain ⟨pre, hpre, hperm, hsort⟩ := h
  exact ⟨fun i j hij => List.pairwise_iff_get.mp hsort i j hij, pre, hpre, hperm⟩

/-- C4 witness: the walk-through output `7` before `12`. -/
theorem c4_witness :
    processOutputs envA outA ∧
    (outA.get ⟨0, by decide⟩).center_id ≤ (outA.get ⟨1, by decide⟩).center_id := by
  have h : processOutputs envA outA := ⟨preA, by decide, by decide, by decide⟩
  exact ⟨h, (c4_output_sorted_ascending envA outA h).1 ⟨0, by decide⟩ ⟨1, by decide⟩ (by decide)⟩

/-- C10 counterexample: a row whose status cell is missing (identifier
present) does not fail the run — `isin` maps `NA` to `False`, the
Kleene `&` gives `False`, and the row is silently dropped; the run
succeeds and writes an empty table. -/
theorem c10_counterexample :
    envNA.readExcel "data.xlsx" = .ok [⟨some "12", none⟩] ∧
    filterRows [⟨some "12", none⟩] = .ok [] ∧
    processUnsorted envNA = .ok [] :=
  ⟨rfl, by decide, by decide⟩

/-- C10 amended: only a missing identifier combined with an accepted
status makes the boolean mask `NA` and fails the whole run with
pandas's masking `ValueError`; a row with a missing status, or a
missing identifier alongside a rejected status, is silently dropped
like any other rejected row (and rows that survive have both cells
present). -/
theorem c10_missing_cell_behaviour (rows : List RawRow) :
    ((∃ r ∈ rows, r.center_id = none ∧ statusAccepted r.lfl_status = true) →
      filterRows rows = .error (.valueError maskMsg)) ∧
    ((∀ r ∈ rows, r.center_id = none → statusAccepted r.lfl_status = false) →
      ∃ kept, filterRows rows = .ok kept ∧
        ∀ r ∈ kept, r.center_id ≠ none ∧ r.lfl_status ≠ none) := by
  constructor
  · rintro ⟨r, hr, hc, hs⟩
    unfold filterRows
    rw [if_pos]
    refine List.any_eq_true.mpr ⟨r, hr, ?_⟩
    unfold rowMask
    rw [hc, hs]
    rfl
  · intro hall
    have hmask : ∀ r ∈ rows, (rowMask r).isNone = false := by
      intro r hr
      unfold rowMask
      cases hc : r.center_id with
      | none =>
        rw [hall r hr hc]
        rfl
      | some s =>
        cases statusAccepted r.lfl_status <;> rfl
    refine ⟨rows.filter (fun r => (rowMask r).getD false), ?_, ?_⟩
    · unfold filterRows
      rw [if_neg]
      intro hany
      obtain ⟨r, hr, hnone⟩ := List.any_eq_true.mp hany
      rw [hmask r hr] at hnone
      cases hnone
    · intro r hr
      obtain ⟨-, hp⟩ := List.mem_filter.mp hr
      obtain ⟨⟨s, hs, -⟩, t, ht, -⟩ :=
        (rowMask_some_true_iff r).mp ((getD_false_eq_true_iff _).mp hp)
      constructor
      · rw [hs]; intro h; cases h
      · rw [ht]; intro h; cases h

/-- C10 witness: the mask error on a missing identifier with accepted
status, and the silent drop of a missing-status row. -/
theorem c10_witness :
    filterRows [⟨none, some "LFL"⟩] = .error (.valueError maskMsg) ∧
    ∃ kept, filterRows [⟨some "12", none⟩] = .ok kept ∧
      ∀ r ∈ kept, r.center_id ≠ none ∧ r.lfl_status ≠ none :=
  ⟨(c10_missing_cell_behaviour [⟨none, some "LFL"⟩]).1
     ⟨⟨none, some "LFL"⟩, by decide, by decide, by decide⟩,
   (c10_missing_cell_behaviour [⟨some "12", none⟩]).2 (by decide)⟩
